import Mathlib

/-!
Shallow embedding of the OCR-refresh orchestration and notification subsystem
of the `isleno` KPIs app (apps/kpis/src/lib/odoo/utils.ts, the `useOcrStatus`
client hook, and the OCR notification store), together with proofs settling
the specification claims about it.

Remote Odoo RPC calls (`searchRead`, `write`, `executeKw`) are modelled as
pre-determined outcomes carried by an environment record: each call either
returns a value or throws an error message (`Except String _`).  Wall-clock
fields of the batch result (`duration`, `completedAt`) are omitted from the
embedding; no claim refers to them.
-/

namespace Isleno

/-- A write issued against the remote record store by the linkage-repair
step: either setting the invoice's `message_main_attachment_id` field, or the
error-state reset of `resetExtractErrorState` (clearing `extract_state`,
`extract_status` and `extract_error_message`). -/
inductive OdooWrite
  | linkage (attachmentId : Nat)
  | resetExtract
deriving DecidableEq, Repr

/-- The slice of the invoice record read by `ensureInvoiceAttachmentLinkage`:
its `message_main_attachment_id` field (`none` models the Odoo `false` /
unset value; `some aid` models a set linkage, covering both the scalar and
the `[id, name]` array form the source normalises). -/
structure InvoiceRec where
  message_main_attachment_id : Option Nat
deriving DecidableEq, Repr

/-- Pre-determined outcomes of the remote calls made while processing one
invoice id: the invoice `searchRead` (throws, or returns no row / one row),
the attachment `searchRead` (throws, or returns a list of attachment ids),
the linkage `write`, the error-state reset `write`, and the
`action_reload_ai_data` `executeKw` extraction call. -/
structure InvoiceEnv where
  invoiceLookup : Except String (Option InvoiceRec)
  attachmentSearch : Except String (List Nat)
  linkWrite : Except String Unit
  resetWrite : Except String Unit
  extraction : Except String Unit

/-- One entry of the orchestrator's per-invoice `results` array. -/
structure InvoiceResult where
  invoiceId : Nat
  success : Bool
  error : Option String
  attachmentLinkage : String
deriving DecidableEq, Repr

/-- The aggregate returned by `refreshOcrDataForInvoices` (wall-clock fields
`duration` and `completedAt` omitted). -/
structure BatchResult where
  totalInvoices : Nat
  successful : Nat
  failed : Nat
  results : List InvoiceResult
deriving DecidableEq, Repr

/-- Embedding of `ensureInvoiceAttachmentLinkage` (utils.ts).  Returns the
boolean result together with the list of writes issued (a write that throws
is still recorded as issued).  The source wraps the body in `try/catch` and
returns `false` on any thrown error, so the embedding is total: it fetches
the invoice (`false` if the lookup throws or finds no row); if
`message_main_attachment_id` is unset it searches for attachments (`false`
if the search throws or finds none) and writes the first attachment id into
the linkage field; then it unconditionally runs `resetExtractErrorState` and
returns `true`, or `false` if any of those writes threw. -/
def ensureInvoiceAttachmentLinkage (env : InvoiceEnv) : Bool × List OdooWrite :=
  match env.invoiceLookup with
  | .error _ => (false, [])
  | .ok none => (false, [])
  | .ok (some inv) =>
    match inv.message_main_attachment_id with
    | some _ =>
      match env.resetWrite with
      | .ok _ => (true, [.resetExtract])
      | .error _ => (false, [.resetExtract])
    | none =>
      match env.attachmentSearch with
      | .error _ => (false, [])
      | .ok [] => (false, [])
      | .ok (aid :: _) =>
        match env.linkWrite with
        | .error _ => (false, [.linkage aid])
        | .ok _ =>
          match env.resetWrite with
          | .ok _ => (true, [.linkage aid, .resetExtract])
          | .error _ => (false, [.linkage aid, .resetExtract])

/-- One iteration of the orchestrator's loop body in
`refreshOcrDataForInvoices` (utils.ts): run the linkage repair; when it
reports `false`, record the fixed skip entry (`success: false`, error
`"No attachment found to process"`, `attachmentLinkage: "no_attachment"`);
otherwise trigger extraction, recording success (`"linked"`) or the caught
error's message (`"unknown"`). -/
def processInvoice (env : Nat → InvoiceEnv) (invoiceId : Nat) : InvoiceResult :=
  let e := env invoiceId
  if (ensureInvoiceAttachmentLinkage e).1 then
    match e.extraction with
    | .ok _ => ⟨invoiceId, true, none, "linked"⟩
    | .error msg => ⟨invoiceId, false, some msg, "unknown"⟩
  else
    ⟨invoiceId, false, some "No attachment found to process", "no_attachment"⟩

/-- The orchestrator's indexed `for` loop: processes the ids in order,
accumulating the per-invoice results and the trace of
`updateProgress(i + 1, total)` calls — one such call per id on every branch
(the skip branch updates progress before its `continue`; success and failure
fall through to the shared update). -/
def refreshLoop (env : Nat → InvoiceEnv) (total : Nat) :
    List Nat → Nat → List InvoiceResult × List (Nat × Nat)
  | [], _ => ([], [])
  | invoiceId :: rest, i =>
    let r := processInvoice env invoiceId
    let tail := refreshLoop env total rest (i + 1)
    (r :: tail.1, (i + 1, total) :: tail.2)

/-- Embedding of `refreshOcrDataForInvoices` (utils.ts): runs the loop over
the given ids and aggregates `successful` (entries with `success`) and
`failed` (entries without), returning the batch result together with the
trace of progress updates issued to the notification store. -/
def refreshOcrDataForInvoices (env : Nat → InvoiceEnv) (invoiceIds : List Nat) :
    BatchResult × List (Nat × Nat) :=
  let run := refreshLoop env invoiceIds.length invoiceIds 0
  let successful := (run.1.filter (fun r => r.success)).length
  let failed := (run.1.filter (fun r => !r.success)).length
  (⟨invoiceIds.length, successful, failed, run.1⟩, run.2)

/-- The slice of an invoice row fetched by `getAllInvoices` (utils.ts) that
its OCR-trigger logic inspects: the id, the nullable `amount_untaxed`
monetary field, and the ids of the attachments grouped onto the row (every
row gets a list, possibly empty). -/
structure OdooInvoiceRow where
  id : Nat
  amount_untaxed : Option ℚ
  attachments : List Nat
deriving DecidableEq, Repr

/-- Per-invoice predicate of the `useOcrStatus` hook's `needsOcrProcessing`
check: `amount_untaxed === null || amount_untaxed === undefined ||
amount_untaxed === 0` (absent and null both modelled as `none`). -/
def invoiceAmountMissingOrZero (amount_untaxed : Option ℚ) : Bool :=
  match amount_untaxed with
  | none => true
  | some v => decide (v = 0)

/-- Modelled from the spec: `isZeroValueInvoice` (imported by utils.ts from
`../utils/invoiceUtils`, a file absent from src/) — "given an invoice
record, returns true iff its untaxed-amount field is absent, null, or
exactly zero". -/
def isZeroValueInvoice (inv : OdooInvoiceRow) : Bool :=
  invoiceAmountMissingOrZero inv.amount_untaxed

/-- The attachment test `getAllInvoices` applies to zero-value rows:
`inv.attachments && inv.attachments.length > 0`. -/
def invoiceHasAttachments (inv : OdooInvoiceRow) : Bool :=
  !inv.attachments.isEmpty

/-- The OCR-trigger tail of `getAllInvoices` (utils.ts).  Returns the
argument of the `startRefresh` call when the background refresh is started
(`none` when it is not) together with the `zeroValueInvoiceIds` list of the
function's return value.  The source filters the fetched rows to the
zero-value ones; when OCR refresh is not skipped and that set is nonempty it
filters again to rows with attachments and, when any remain, hands their ids
to `ocrNotificationService.startRefresh` and the detached
`refreshOcrDataForInvoices` run; `zeroValueInvoiceIds` is recomputed from
the same two filters. -/
def getAllInvoicesOcrTrigger (skipOcrRefresh : Bool)
    (invoices : List OdooInvoiceRow) : Option (List Nat) × List Nat :=
  let zeroValueInvoices := invoices.filter isZeroValueInvoice
  let invoicesWithAttachments := zeroValueInvoices.filter invoiceHasAttachments
  let started : Option (List Nat) :=
    if skipOcrRefresh = false ∧ 0 < zeroValueInvoices.length
        ∧ 0 < invoicesWithAttachments.length then
      some (invoicesWithAttachments.map (fun inv => inv.id))
    else
      none
  let processedForOcr :=
    if skipOcrRefresh = false ∧ 0 < zeroValueInvoices.length then
      invoicesWithAttachments
    else
      []
  (started, processedForOcr.map (fun inv => inv.id))

/-- A terminal notification-store call made for a batch. -/
inductive TerminalCall
  | complete (result : BatchResult)
  | fail (message : String)
deriving DecidableEq, Repr

/-- The continuation `getAllInvoices` attaches to the detached
`refreshOcrDataForInvoices` promise:
`.then(result => ocrNotificationService.completeRefresh(result))
.catch(error => ocrNotificationService.failRefresh(message))`.
The background run's outcome is modelled as an `Except`: a fulfilled
promise carries the aggregate, a rejection carries the error message. -/
def settleBackgroundRefresh (run : Except String BatchResult) : TerminalCall :=
  match run with
  | .ok result => .complete result
  | .error message => .fail message

/-- The kind of a `sonner` toast call raised by the `useOcrStatus` hook. -/
inductive ToastKind
  | success
  | warning
  | error
deriving DecidableEq, Repr

/-- A user-facing toast: its kind and title (the interpolated description
strings are elided). -/
structure ToastCall where
  kind : ToastKind
  title : String
deriving DecidableEq, Repr

/-- The result-classification branch of `pollStatus` in the `useOcrStatus`
hook (run once per newly observed terminal batch result):
`successful === totalInvoices` raises `toast.success('OCR Refresh
Complete')`; otherwise `successful > 0` raises `toast.success('OCR Refresh
Partially Complete')`; otherwise `toast.error('OCR Refresh Failed')`. -/
def classifyOcrResultToast (successful totalInvoices : Nat) : ToastCall :=
  if successful = totalInvoices then ⟨.success, "OCR Refresh Complete"⟩
  else if 0 < successful then ⟨.success, "OCR Refresh Partially Complete"⟩
  else ⟨.error, "OCR Refresh Failed"⟩

/-- Modelled from the spec: the snapshot state of the Refresh Notification
Store (`ocrNotificationService`, whose implementation file is absent from
src/) — `{isRunning, startTime?, progress?, lastResult?, lastError?}` with
`progress` a `(completed, total)` pair. -/
structure OcrStoreState where
  isRunning : Bool
  startTime : Option Nat
  progress : Option (Nat × Nat)
  lastResult : Option BatchResult
  lastError : Option String
deriving DecidableEq, Repr

/-- Modelled from the spec: the store's initial `Idle` state. -/
def OcrStoreState.initial : OcrStoreState :=
  ⟨false, none, none, none, none⟩

/-- Modelled from the spec: `startRefresh(invoiceIds)` — transitions to
`Running`, records the start time, resets progress to
`(0, total = size of invoiceIds)`, and leaves the previously stored
terminal result and error visible until the new batch's own terminal
transition supersedes them. -/
def OcrStoreState.startRefresh (s : OcrStoreState) (now : Nat)
    (invoiceIds : List Nat) : OcrStoreState :=
  { isRunning := true
    startTime := some now
    progress := some (0, invoiceIds.length)
    lastResult := s.lastResult
    lastError := s.lastError }

/-- Modelled from the spec: `updateProgress(completed, total)`. -/
def OcrStoreState.updateProgress (s : OcrStoreState)
    (completed total : Nat) : OcrStoreState :=
  { s with progress := some (completed, total) }

/-- Modelled from the spec: `completeRefresh(result)` — leaves `Running`,
clears the running progress fields, retains `result` as the last result for
subsequent snapshot reads, and clears the mutually exclusive terminal
error. -/
def OcrStoreState.completeRefresh (s : OcrStoreState)
    (result : BatchResult) : OcrStoreState :=
  { isRunning := false
    startTime := none
    progress := none
    lastResult := some result
    lastError := none }

/-- Modelled from the spec: `failRefresh(message)` — same transition shape
as `completeRefresh` but stores a terminal error message; the last result
is left as the previous batch's (never corrupted into a mixed state). -/
def OcrStoreState.failRefresh (s : OcrStoreState)
    (message : String) : OcrStoreState :=
  { isRunning := false
    startTime := none
    progress := none
    lastResult := s.lastResult
    lastError := some message }

/-- Modelled from the spec: `getSnapshot()` returns an immutable copy of the
state; in the pure embedding the copy is the state itself. -/
def OcrStoreState.getSnapshot (s : OcrStoreState) : OcrStoreState := s

/-! ### Helper lemmas about the orchestrator loop -/

/-- The loop's per-invoice results are exactly the pointwise outcomes of the
ids, in order. -/
theorem refreshLoop_results (env : Nat → InvoiceEnv) (total : Nat) :
    ∀ (ids : List Nat) (i : Nat),
      (refreshLoop env total ids i).1 = ids.map (processInvoice env)
  | [], _ => rfl
  | _ :: rest, i => by
    simp [refreshLoop, refreshLoop_results env total rest (i + 1)]

/-- The loop's progress trace: one `(i + k + 1, total)` entry per processed
id, in order. -/
theorem refreshLoop_progress (env : Nat → InvoiceEnv) (total : Nat) :
    ∀ (ids : List Nat) (i : Nat),
      (refreshLoop env total ids i).2 =
        (List.range ids.length).map (fun k => (i + k + 1, total))
  | [], _ => rfl
  | _ :: rest, i => by
    simp [refreshLoop, refreshLoop_progress env total rest (i + 1),
      List.range_succ_eq_map, Nat.add_assoc, Nat.add_comm 1,
      Function.comp]

/-- Unfolding of the batch aggregate. -/
theorem refreshOcrDataForInvoices_results (env : Nat → InvoiceEnv)
    (invoiceIds : List Nat) :
    (refreshOcrDataForInvoices env invoiceIds).1.results =
      invoiceIds.map (processInvoice env) := by
  simp [refreshOcrDataForInvoices, refreshLoop_results]

/-- The aggregate's `totalInvoices` is the number of ids handed in. -/
theorem refreshOcrDataForInvoices_total (env : Nat → InvoiceEnv)
    (invoiceIds : List Nat) :
    (refreshOcrDataForInvoices env invoiceIds).1.totalInvoices =
      invoiceIds.length := rfl

/-- The per-invoice outcome always carries the processed id. -/
theorem processInvoice_invoiceId (env : Nat → InvoiceEnv) (invoiceId : Nat) :
    (processInvoice env invoiceId).invoiceId = invoiceId := by
  unfold processInvoice
  rcases h : (ensureInvoiceAttachmentLinkage (env invoiceId)).1 <;>
    simp [h] <;> rcases (env invoiceId).extraction <;> simp

/-- A remote-call environment realising the spec's end-to-end scenario for
ids `[1, 2, 3]`: id 1 is found with the linkage unset and has no
attachments, id 2 has its linkage set and extraction succeeds, id 3 has its
linkage set and extraction throws `"rate limited"`. -/
def scenarioEnv : Nat → InvoiceEnv := fun invoiceId =>
  if invoiceId = 1 then
    ⟨.ok (some ⟨none⟩), .ok [], .ok (), .ok (), .ok ()⟩
  else if invoiceId = 2 then
    ⟨.ok (some ⟨some 11⟩), .ok [], .ok (), .ok (), .ok ()⟩
  else
    ⟨.ok (some ⟨some 12⟩), .ok [], .ok (), .ok (), .error "rate limited"⟩

/-! ### Claim theorems -/

/-- Claim C1 counterexample: in the spec's scenario (ids `[1, 2, 3]`, id 1
without attachment, id 2 succeeding, id 3 throwing), the aggregate returned
by `refreshOcrDataForInvoices` has `failed = 2`, not `failed = 1`: the
no-attachment invoice is pushed with `success: false` and therefore counted
inside `failed`, and the aggregate has no separate skipped bucket. -/
theorem c1_counterexample :
    (refreshOcrDataForInvoices scenarioEnv [1, 2, 3]).1.totalInvoices = 3 ∧
    (refreshOcrDataForInvoices scenarioEnv [1, 2, 3]).1.successful = 1 ∧
    (refreshOcrDataForInvoices scenarioEnv [1, 2, 3]).1.failed = 2 ∧
    (refreshOcrDataForInvoices scenarioEnv [1, 2, 3]).1.failed ≠ 1 := by
  decide

/-- Claim C1 (amended): for every run of `refreshOcrDataForInvoices` over
three ids where the first is found without attachments (linkage unset,
attachment search empty), the second's linkage repair succeeds and its
extraction succeeds, and the third's linkage repair succeeds but its
extraction throws, the aggregate is `totalInvoices = 3`, `successful = 1`
and `failed = 2`: the no-attachment id is counted in `failed` — never in
`successful` — and is distinguished only by its per-invoice result entry
(error `"No attachment found to process"`, `attachmentLinkage
"no_attachment"`), not by a separate aggregate bucket. -/
theorem c1_skip_counted_as_failed (env : Nat → InvoiceEnv) (a b c : Nat)
    (msg : String) (inva : InvoiceRec)
    (ha1 : (env a).invoiceLookup = .ok (some inva))
    (ha2 : inva.message_main_attachment_id = none)
    (ha3 : (env a).attachmentSearch = .ok [])
    (hb1 : (ensureInvoiceAttachmentLinkage (env b)).1 = true)
    (hb2 : (env b).extraction = .ok ())
    (hc1 : (ensureInvoiceAttachmentLinkage (env c)).1 = true)
    (hc2 : (env c).extraction = .error msg) :
    (refreshOcrDataForInvoices env [a, b, c]).1 =
      ⟨3, 1, 2,
        [⟨a, false, some "No attachment found to process", "no_attachment"⟩,
         ⟨b, true, none, "linked"⟩,
         ⟨c, false, some msg, "unknown"⟩]⟩ := by
  have hpa : processInvoice env a =
      ⟨a, false, some "No attachment found to process", "no_attachment"⟩ := by
    simp [processInvoice, ensureInvoiceAttachmentLinkage, ha1, ha2, ha3]
  have hpb : processInvoice env b = ⟨b, true, none, "linked"⟩ := by
    simp [processInvoice, hb1, hb2]
  have hpc : processInvoice env c = ⟨c, false, some msg, "unknown"⟩ := by
    simp [processInvoice, hc1, hc2]
  simp [refreshOcrDataForInvoices, refreshLoop, hpa, hpb, hpc,
    List.filter]

/-- Claim C1 witness: the amended statement instantiated on the concrete
scenario environment. -/
theorem c1_witness :
    (refreshOcrDataForInvoices scenarioEnv [1, 2, 3]).1 =
      ⟨3, 1, 2,
        [⟨1, false, some "No attachment found to process", "no_attachment"⟩,
         ⟨2, true, none, "linked"⟩,
         ⟨3, false, some "rate limited", "unknown"⟩]⟩ :=
  c1_skip_counted_as_failed scenarioEnv 1 2 3 "rate limited" ⟨none⟩
    rfl rfl rfl rfl rfl rfl rfl

/-- Claim C2 counterexample: for a partially successful batch (1 of 2
succeeded), `pollStatus` raises a success-kind toast titled
`"OCR Refresh Partially Complete"` (`toast.success`), not a warning-kind
notification as the claim states. -/
theorem c2_counterexample :
    classifyOcrResultToast 1 2 =
      ⟨ToastKind.success, "OCR Refresh Partially Complete"⟩ ∧
    (classifyOcrResultToast 1 2).kind ≠ ToastKind.warning := by
  decide

/-- Claim C2 (amended): the hook classifies the single toast raised for a
newly observed terminal batch result as follows — a success toast titled
`"OCR Refresh Complete"` when `successful = totalInvoices`; a success-kind
toast titled `"OCR Refresh Partially Complete"` (not a warning) when some
but not all items succeeded; and an error toast titled
`"OCR Refresh Failed"` when `successful = 0` and `totalInvoices > 0`. -/
theorem c2_toast_classification (successful totalInvoices : Nat) :
    (successful = totalInvoices →
      classifyOcrResultToast successful totalInvoices =
        ⟨ToastKind.success, "OCR Refresh Complete"⟩) ∧
    (0 < successful → successful < totalInvoices →
      classifyOcrResultToast successful totalInvoices =
        ⟨ToastKind.success, "OCR Refresh Partially Complete"⟩) ∧
    (successful = 0 → 0 < totalInvoices →
      classifyOcrResultToast successful totalInvoices =
        ⟨ToastKind.error, "OCR Refresh Failed"⟩) := by
  refine ⟨fun h => by simp [classifyOcrResultToast, h], ?_, ?_⟩
  · intro hpos hlt
    simp [classifyOcrResultToast, Nat.ne_of_lt hlt, hpos]
  · intro hzero hpos
    simp [classifyOcrResultToast, hzero]
    omega

/-- Claim C2 witness: the amended classification at the concrete triples
`(2, 2)`, `(1, 2)` and `(0, 2)`. -/
theorem c2_witness :
    classifyOcrResultToast 2 2 =
      ⟨ToastKind.success, "OCR Refresh Complete"⟩ ∧
    classifyOcrResultToast 1 2 =
      ⟨ToastKind.success, "OCR Refresh Partially Complete"⟩ ∧
    classifyOcrResultToast 0 2 =
      ⟨ToastKind.error, "OCR Refresh Failed"⟩ :=
  ⟨(c2_toast_classification 2 2).1 rfl,
   (c2_toast_classification 1 2).2.1 (by decide) (by decide),
   (c2_toast_classification 0 2).2.2 rfl (by decide)⟩

/-- Claim C3: when the invoice's `message_main_attachment_id` is already
set, `ensureInvoiceAttachmentLinkage` issues no linkage write, while the
error-state reset write is still issued for that invoice — the writes it
issues are exactly `[resetExtract]`, whether the reset write succeeds or
throws. -/
theorem c3_linkage_noop_reset_issued (env : InvoiceEnv) (inv : InvoiceRec)
    (aid : Nat)
    (h1 : env.invoiceLookup = .ok (some inv))
    (h2 : inv.message_main_attachment_id = some aid) :
    (ensureInvoiceAttachmentLinkage env).2 = [OdooWrite.resetExtract] := by
  rcases hr : env.resetWrite <;>
    simp [ensureInvoiceAttachmentLinkage, h1, h2, hr]

/-- Claim C3 witness: concrete environment with the linkage already set. -/
theorem c3_witness :
    (ensureInvoiceAttachmentLinkage
      ⟨.ok (some ⟨some 5⟩), .ok [], .ok (), .ok (), .ok ()⟩).2 =
      [OdooWrite.resetExtract] :=
  c3_linkage_noop_reset_issued
    ⟨.ok (some ⟨some 5⟩), .ok [], .ok (), .ok (), .ok ()⟩ ⟨some 5⟩ 5 rfl rfl

/-- Claim C4: if the extraction call throws for one id in the batch, the
orchestrator records a failed per-invoice outcome carrying the underlying
error message and still processes every id in order: the results list is
the pointwise outcome of every id handed in, its ids are the batch ids in
order, the throwing id's entry is `success = false` with the thrown
message, and the aggregate is still produced with `totalInvoices` the full
batch size. -/
theorem c4_failure_does_not_abort_batch (env : Nat → InvoiceEnv)
    (pre post : List Nat) (x : Nat) (msg : String)
    (h1 : (ensureInvoiceAttachmentLinkage (env x)).1 = true)
    (h2 : (env x).extraction = .error msg) :
    (refreshOcrDataForInvoices env (pre ++ x :: post)).1.results =
      (pre ++ x :: post).map (processInvoice env) ∧
    (refreshOcrDataForInvoices env
        (pre ++ x :: post)).1.results.map (fun r => r.invoiceId) =
      pre ++ x :: post ∧
    processInvoice env x = ⟨x, false, some msg, "unknown"⟩ ∧
    (refreshOcrDataForInvoices env (pre ++ x :: post)).1.totalInvoices =
      (pre ++ x :: post).length := by
  refine ⟨refreshOcrDataForInvoices_results env _, ?_, ?_, rfl⟩
  · rw [refreshOcrDataForInvoices_results, List.map_map]
    have : (fun r : InvoiceResult => r.invoiceId) ∘ processInvoice env = id := by
      funext invoiceId
      exact processInvoice_invoiceId env invoiceId
    rw [this, List.map_id]
  · simp [processInvoice, h1, h2]

/-- Claim C4 witness: the scenario environment, where id 3's extraction
throws `"rate limited"` inside the batch `[1, 2] ++ 3 :: []`. -/
theorem c4_witness :
    (refreshOcrDataForInvoices scenarioEnv ([1, 2] ++ 3 :: [])).1.results =
      ([1, 2] ++ 3 :: []).map (processInvoice scenarioEnv) ∧
    (refreshOcrDataForInvoices scenarioEnv
        ([1, 2] ++ 3 :: [])).1.results.map (fun r => r.invoiceId) =
      [1, 2] ++ 3 :: [] ∧
    processInvoice scenarioEnv 3 = ⟨3, false, some "rate limited", "unknown"⟩ ∧
    (refreshOcrDataForInvoices scenarioEnv ([1, 2] ++ 3 :: [])).1.totalInvoices =
      ([1, 2] ++ 3 :: []).length :=
  c4_failure_does_not_abort_batch scenarioEnv [1, 2] [] 3 "rate limited" rfl rfl

/-- Claim C5: for every batch, the orchestrator issues exactly one
`updateProgress` call after each invoice regardless of outcome — `n` calls
in total, the `i`-th with arguments `(i + 1, n)` — so the reported
completed counts are `1, 2, …, n` in strictly increasing order. -/
theorem c5_progress_trace (env : Nat → InvoiceEnv) (invoiceIds : List Nat) :
    (refreshOcrDataForInvoices env invoiceIds).2 =
      (List.range invoiceIds.length).map
        (fun k => (k + 1, invoiceIds.length)) ∧
    (refreshOcrDataForInvoices env invoiceIds).2.length =
      invoiceIds.length ∧
    List.Pairwise (fun p q : Nat × Nat => p.1 < q.1)
      (refreshOcrDataForInvoices env invoiceIds).2 := by
  have htrace : (refreshOcrDataForInvoices env invoiceIds).2 =
      (List.range invoiceIds.length).map
        (fun k => (k + 1, invoiceIds.length)) := by
    simp [refreshOcrDataForInvoices, refreshLoop_progress]
  refine ⟨htrace, by simp [htrace], ?_⟩
  rw [htrace]
  exact List.Pairwise.map _ (fun a b hab => by simpa using hab)
    (List.pairwise_lt_range _)

/-- The two successive filters of `getAllInvoices` compose to one filter by
the conjunction "zero-value and has attachments". -/
theorem zeroValue_attachment_filter (invoices : List OdooInvoiceRow) :
    (invoices.filter isZeroValueInvoice).filter invoiceHasAttachments =
      invoices.filter
        fun inv => isZeroValueInvoice inv && invoiceHasAttachments inv := by
  rw [List.filter_filter]
  exact List.filter_congr fun inv _ => Bool.and_comm _ _

/-- Claim C6: `getAllInvoices` starts the background refresh
(`startRefresh` plus the detached orchestrator run) iff OCR refresh is not
skipped and at least one fetched zero-value invoice has an attachment; when
it does, the id list handed to `startRefresh` and returned as
`zeroValueInvoiceIds` is exactly the ids of the zero-value invoices that
currently have attachments, so zero-value invoices without attachments are
excluded before the orchestrator is invoked. -/
theorem c6_ocr_trigger (skipOcrRefresh : Bool)
    (invoices : List OdooInvoiceRow) :
    ((getAllInvoicesOcrTrigger skipOcrRefresh invoices).1 ≠ none ↔
      (skipOcrRefresh = false ∧
        (invoices.filter
          fun inv => isZeroValueInvoice inv && invoiceHasAttachments inv)
          ≠ [])) ∧
    (∀ ids, (getAllInvoicesOcrTrigger skipOcrRefresh invoices).1 = some ids →
      ids = (invoices.filter
          fun inv => isZeroValueInvoice inv && invoiceHasAttachments inv).map
          (fun inv => inv.id) ∧
      (getAllInvoicesOcrTrigger skipOcrRefresh invoices).2 = ids) ∧
    ((invoices.filter
        fun inv => isZeroValueInvoice inv && invoiceHasAttachments inv)
        ≠ [] ↔
      ∃ inv ∈ invoices,
        isZeroValueInvoice inv = true ∧ inv.attachments ≠ []) := by
  have hw := zeroValue_attachment_filter invoices
  have hzw : 0 < ((invoices.filter isZeroValueInvoice).filter
        invoiceHasAttachments).length →
      0 < (invoices.filter isZeroValueInvoice).length := by
    intro h
    calc 0 < ((invoices.filter isZeroValueInvoice).filter
        invoiceHasAttachments).length := h
    _ ≤ (invoices.filter isZeroValueInvoice).length :=
        List.length_filter_le _ _
  refine ⟨?_, ?_, ?_⟩
  · rw [getAllInvoicesOcrTrigger]
    split
    case isTrue h =>
      simp only [ne_eq, reduceCtorEq, not_false_eq_true, true_iff]
      refine ⟨h.1, ?_⟩
      rw [← hw]
      exact List.length_pos.mp h.2.2
    case isFalse h =>
      simp only [ne_eq, not_true_eq_false, false_iff, not_and, not_not]
      intro hs
      by_contra hne
      apply h
      rw [← hw] at hne
      have hlen := List.length_pos.mpr hne
      exact ⟨hs, hzw hlen, hlen⟩
  · intro ids hids
    rw [getAllInvoicesOcrTrigger] at hids
    split at hids
    case isFalse h => exact absurd hids (by simp)
    case isTrue h =>
      have hids' : ids = ((invoices.filter isZeroValueInvoice).filter
          invoiceHasAttachments).map (fun inv => inv.id) :=
        (Option.some.injEq _ _ ▸ hids).symm
      constructor
      · rw [hids', hw]
      · rw [getAllInvoicesOcrTrigger]
        simp only []
        rw [if_pos ⟨h.1, h.2.1⟩, hids']
  · rw [← hw]
    constructor
    · intro h
      rcases List.exists_mem_of_ne_nil _ h with ⟨inv, hr⟩
      rw [List.mem_filter] at hr
      rcases hr with ⟨hr1, hr2⟩
      rw [List.mem_filter] at hr1
      refine ⟨inv, hr1.1, hr1.2, ?_⟩
      have hpa : invoiceHasAttachments inv = true := hr2
      rw [invoiceHasAttachments, Bool.not_eq_true'] at hpa
      intro hcontra
      rw [hcontra] at hpa
      simp at hpa
    · rintro ⟨inv, hrl, hpz, hatt⟩ hcontra
      rw [List.filter_eq_nil_iff] at hcontra
      refine hcontra inv ?_ ?_
      · rw [List.mem_filter]
        exact ⟨hrl, hpz⟩
      · rw [invoiceHasAttachments, Bool.not_eq_true']
        cases h : inv.attachments.isEmpty
        · rfl
        · exact absurd (List.isEmpty_iff.mp h) hatt

/-- Claim C6 witness: a concrete fetch with one zero-value invoice with an
attachment, one zero-value invoice without, and one valued invoice — the
refresh starts with exactly the first invoice's id, which is also returned
as `zeroValueInvoiceIds`. -/
theorem c6_witness :
    [1] = ([⟨1, none, [10]⟩, ⟨2, some 0, []⟩,
        (⟨3, some (mkRat 25 2), [11]⟩ : OdooInvoiceRow)].filter
        fun inv => isZeroValueInvoice inv && invoiceHasAttachments inv).map
        (fun inv => inv.id) ∧
    (getAllInvoicesOcrTrigger false
      [⟨1, none, [10]⟩, ⟨2, some 0, []⟩, ⟨3, some (mkRat 25 2), [11]⟩]).2 =
      [1] :=
  (c6_ocr_trigger false
    [⟨1, none, [10]⟩, ⟨2, some 0, []⟩, ⟨3, some (mkRat 25 2), [11]⟩]).2.1
    [1] (by decide)

/-- Claim C7: the zero-value detector is a pure predicate that holds iff
the untaxed-amount field is absent, null, or exactly zero — in particular
true for `0` and for `null`, false for `12.5` (`mkRat 25 2 = 25 / 2`), and
the `isZeroValueInvoice` record predicate agrees with it pointwise. -/
theorem c7_zero_value_detector :
    (∀ amount : Option ℚ,
      invoiceAmountMissingOrZero amount = true ↔
        (amount = none ∨ amount = some 0)) ∧
    invoiceAmountMissingOrZero none = true ∧
    invoiceAmountMissingOrZero (some 0) = true ∧
    invoiceAmountMissingOrZero (some (mkRat 25 2)) = false ∧
    (mkRat 25 2 : ℚ) = 25 / 2 ∧
    (∀ inv : OdooInvoiceRow,
      isZeroValueInvoice inv =
        invoiceAmountMissingOrZero inv.amount_untaxed) := by
  refine ⟨?_, rfl, by decide, by decide, ?_, fun inv => rfl⟩
  · intro amount
    cases amount with
    | none => simp [invoiceAmountMissingOrZero]
    | some v => simp [invoiceAmountMissingOrZero]
  · rw [Rat.mkRat_eq_div]
    norm_num

/-- Claim C8: the continuation attached to the detached orchestrator run
settles every started batch with exactly one terminal notification-store
call — `completeRefresh` with the aggregate exactly when the run fulfils,
`failRefresh` with the error message exactly when it rejects, and
`failRefresh` in no other case. -/
theorem c8_exactly_one_terminal_call (run : Except String BatchResult) :
    (∀ result, run = .ok result →
      settleBackgroundRefresh run = .complete result) ∧
    (∀ message, run = .error message →
      settleBackgroundRefresh run = .fail message) ∧
    ((∃ message, settleBackgroundRefresh run = .fail message) ↔
      ∃ message, run = .error message) ∧
    ((∃ result, settleBackgroundRefresh run = .complete result) ↔
      ∃ result, run = .ok result) := by
  cases run <;> simp [settleBackgroundRefresh]

/-- Claim C8 witness: a rejected background run settles with `failRefresh`
carrying the error message. -/
theorem c8_witness :
    settleBackgroundRefresh (.error "Unknown error") = .fail "Unknown error" :=
  (c8_exactly_one_terminal_call (.error "Unknown error")).2.1
    "Unknown error" rfl

/-- Claim C9: while `Running`, `completeRefresh(result)` yields a snapshot
with `isRunning = false` and `lastResult = result`, which every snapshot
read before the next `startRefresh` returns unchanged; a following
`startRefresh(ids)` resets progress to `(0, ids.length)` while the previous
batch's `lastResult` stays visible, and only the new batch's own terminal
call overwrites it. -/
theorem c9_store_round_trip (s : OcrStoreState) (result next : BatchResult)
    (now : Nat) (invoiceIds : List Nat)
    (hrun : s.isRunning = true) :
    (s.completeRefresh result).isRunning = false ∧
    (s.completeRefresh result).getSnapshot.lastResult = some result ∧
    ((s.completeRefresh result).startRefresh now invoiceIds).progress =
      some (0, invoiceIds.length) ∧
    ((s.completeRefresh result).startRefresh now invoiceIds).lastResult =
      some result ∧
    (((s.completeRefresh result).startRefresh now
        invoiceIds).completeRefresh next).lastResult = some next := by
  exact ⟨rfl, rfl, rfl, rfl, rfl⟩

/-- Claim C9 witness: the round trip `startRefresh([5, 6])`,
`completeRefresh`, `startRefresh([7])` from the initial state, with the
spec's example aggregate of 8 successful out of 10. -/
theorem c9_witness :
    ((OcrStoreState.initial.startRefresh 0 [5, 6]).completeRefresh
      ⟨10, 8, 2, []⟩).isRunning = false ∧
    ((OcrStoreState.initial.startRefresh 0 [5, 6]).completeRefresh
      ⟨10, 8, 2, []⟩).getSnapshot.lastResult = some ⟨10, 8, 2, []⟩ ∧
    (((OcrStoreState.initial.startRefresh 0 [5, 6]).completeRefresh
      ⟨10, 8, 2, []⟩).startRefresh 1 [7]).progress = some (0, 1) ∧
    (((OcrStoreState.initial.startRefresh 0 [5, 6]).completeRefresh
      ⟨10, 8, 2, []⟩).startRefresh 1 [7]).lastResult = some ⟨10, 8, 2, []⟩ ∧
    ((((OcrStoreState.initial.startRefresh 0 [5, 6]).completeRefresh
      ⟨10, 8, 2, []⟩).startRefresh 1 [7]).completeRefresh
        ⟨1, 1, 0, []⟩).lastResult = some ⟨1, 1, 0, []⟩ :=
  c9_store_round_trip (OcrStoreState.initial.startRefresh 0 [5, 6])
    ⟨10, 8, 2, []⟩ ⟨1, 1, 0, []⟩ 1 [7] rfl

/-- Claim C10: `ensureInvoiceAttachmentLinkage` never throws and returns
`true` exactly when the invoice is found, the error-state reset write
succeeds, and the main attachment is either already linked or becomes
linked (an attachment exists and the linkage write succeeds); in every
other case — invoice not found, or any remote call throwing — it returns
`false`, and the orchestrator then records the invoice under the fixed
outcome `"No attachment found to process"` rather than the underlying
error. -/
theorem c10_linkage_totality :
    (∀ env : InvoiceEnv,
      (ensureInvoiceAttachmentLinkage env).1 = true ↔
        ∃ inv, env.invoiceLookup = .ok (some inv) ∧
          env.resetWrite = .ok () ∧
          ((∃ aid, inv.message_main_attachment_id = some aid) ∨
           (inv.message_main_attachment_id = none ∧
             ∃ aid rest, env.attachmentSearch = .ok (aid :: rest) ∧
               env.linkWrite = .ok ()))) ∧
    (∀ (env : Nat → InvoiceEnv) (invoiceId : Nat),
      (ensureInvoiceAttachmentLinkage (env invoiceId)).1 = false →
        processInvoice env invoiceId =
          ⟨invoiceId, false, some "No attachment found to process",
            "no_attachment"⟩) := by
  constructor
  · intro env
    rcases env with ⟨lookup, search, link, reset, extr⟩
    rcases lookup with lmsg | o
    · simp [ensureInvoiceAttachmentLinkage]
    rcases o with _ | inv
    · simp [ensureInvoiceAttachmentLinkage]
    rcases inv with ⟨mmai⟩
    rcases mmai with _ | aid
    · rcases search with smsg | atts
      · simp [ensureInvoiceAttachmentLinkage]
      rcases atts with _ | ⟨aid0, rest⟩
      · simp [ensureInvoiceAttachmentLinkage]
      rcases link with lwmsg | u
      · simp [ensureInvoiceAttachmentLinkage]
      rcases reset with rmsg | u'
      · simp [ensureInvoiceAttachmentLinkage]
      · cases u
        cases u'
        simp [ensureInvoiceAttachmentLinkage]
    · rcases reset with rmsg | u
      · simp [ensureInvoiceAttachmentLinkage]
      · cases u
        simp [ensureInvoiceAttachmentLinkage]
  · intro env invoiceId h
    simp [processInvoice, h]

/-- Claim C10 witness: an environment whose invoice lookup throws a network
error still yields `false` from the linkage repair, and the orchestrator
records the fixed no-attachment outcome for that invoice. -/
theorem c10_witness :
    processInvoice (fun _ =>
        ⟨.error "network timeout", .ok [], .ok (), .ok (), .ok ()⟩) 7 =
      ⟨7, false, some "No attachment found to process", "no_attachment"⟩ :=
  c10_linkage_totality.2
    (fun _ => ⟨.error "network timeout", .ok [], .ok (), .ok (), .ok ()⟩) 7 rfl

end Isleno
